import Mathlib

set_option maxRecDepth 10000

/-!
Shallow embedding of the size-recommendation service
(`src/main.py`, `src/config.py`).

Numbers are embedded as `ℚ`. Python's `float('inf')` upper-bound default in
the containment test is embedded by making an absent `max` an always-true
upper bound there. Python's `round(x, 2)` is embedded as `round2`; the
claims that mention rounding only compare the same rounding applied to two
expressions, so the tie-breaking direction of the rounding is irrelevant.
Error-message strings keep the source's wording up to accents and quotes.
-/

namespace CalculadoraTalla

/-- A single size range, one entry of a chart's `"ranges"` JSON array.
All three JSON keys may be absent (`main.py` reads `min`/`max` with
`dict.get` defaults and `size` with a raising `r["size"]`). -/
structure SizeRange where
  min? : Option ℚ
  max? : Option ℚ
  size? : Option String
deriving DecidableEq, Repr

/-- A parsed size-chart JSON document (`config.py:get_size_chart` returns a
raw dict; `main.py` reads `ranges`, `unit`, `name` with `dict.get`). -/
structure SizeChart where
  ranges? : Option (List SizeRange)
  unit? : Option String
  name? : Option String
deriving DecidableEq, Repr

/-- `FitType` enum of `main.py`. -/
inductive FitType where
  | slim
  | regular
  | loose
deriving DecidableEq, Repr

/-- Response `mode` literal of `main.py:RecommendationResponse`. -/
inductive Mode where
  | inRange
  | closest
deriving DecidableEq, Repr

/-- The three fit-adjustment constants of `config.py:Settings`, with their
declared default values (env overrides keep the same shape). -/
structure Settings where
  FIT_ADJUSTMENT_SLIM : ℚ := -1
  FIT_ADJUSTMENT_REGULAR : ℚ := 0
  FIT_ADJUSTMENT_LOOSE : ℚ := 1
deriving DecidableEq, Repr

/-- The `Settings()` instance with all defaults (`config.py` line 46). -/
def defaultSettings : Settings := {}

/-- The `fit_adjustments` dict of `main.py` lines 91-95. -/
def fit_adjustments (s : Settings) : FitType → ℚ
  | .slim => s.FIT_ADJUSTMENT_SLIM
  | .regular => s.FIT_ADJUSTMENT_REGULAR
  | .loose => s.FIT_ADJUSTMENT_LOOSE

/-- Embedding of Python's `round(x, 2)`: round to two decimal places. -/
def round2 (x : ℚ) : ℚ := ((round (100 * x) : ℤ) : ℚ) / 100

/-- `main.py:RecommendationResponse`. -/
structure RecommendationResponse where
  recommended_size : String
  target_measurement : ℚ
  unit : String
  mode : Mode
  chart_key : String
  chart_name : String
deriving DecidableEq, Repr

/-- Outcomes of a request other than a successful response: an
`HTTPException` raised by the handler (`http status detail`), or an
uncaught Python exception propagating out of the handler (`keyError k`,
raised by a `r[k]` access on a dict missing key `k`). -/
inductive ApiError where
  | http (status : Nat) (detail : String)
  | keyError (key : String)
deriving DecidableEq, Repr

/-- The containment test of `main.py` line 105:
`r.get("min", 0) <= target <= r.get("max", float('inf'))`.
An absent `max` defaults to `+inf`, an always-true upper bound. -/
def inRangeB (t : ℚ) (r : SizeRange) : Bool :=
  decide (r.min?.getD 0 ≤ t) &&
    (match r.max? with
     | some m => decide (t ≤ m)
     | none => true)

/-- The closest-match key of `main.py` line 118:
`min(abs(target - r.get("min", 0)), abs(target - r.get("max", 0)))`.
Note: here an absent `max` defaults to `0`, not `+inf`. -/
def closest_key (t : ℚ) (r : SizeRange) : ℚ :=
  min |t - r.min?.getD 0| |t - r.max?.getD 0|

/-- Python's `min(x :: xs, key=key)`: a left fold that keeps the current
element on ties and replaces it only on a strictly smaller key, so the
first element attaining the minimum wins. -/
def pyMin {α : Type} (key : α → ℚ) (x : α) (xs : List α) : α :=
  xs.foldl (fun b a => if key a < key b then a else b) x

/-- Building a `RecommendationResponse` from a winning range
(`main.py` lines 106-113 and 120-127).  The `r["size"]` access raises
`KeyError` when the range has no `size` label. -/
def buildResponse (chart_key : String) (chart : SizeChart) (t : ℚ) (m : Mode)
    (r : SizeRange) : Except ApiError RecommendationResponse :=
  match r.size? with
  | none => .error (.keyError "size")
  | some sz =>
      .ok { recommended_size := sz
            target_measurement := round2 t
            unit := chart.unit?.getD "cm"
            mode := m
            chart_key := chart_key
            chart_name := chart.name?.getD chart_key }

/-- The resolver core, `main.py` lines 99-127, applied to an already-loaded
chart and the fit-adjusted target measurement: empty-ranges check, first
in-range match, then closest match. -/
def resolve (chart_key : String) (chart : SizeChart) (t : ℚ) :
    Except ApiError RecommendationResponse :=
  match chart.ranges?.getD [] with
  | [] => .error (.http 500
      ("La guia de tallas " ++ chart_key ++ " no tiene rangos definidos."))
  | r0 :: rs =>
    match (r0 :: rs).find? (inRangeB t) with
    | some r => buildResponse chart_key chart t Mode.inRange r
    | none => buildResponse chart_key chart t Mode.closest (pyMin (closest_key t) r0 rs)

/-- The handler body of `main.py:recommend_size` after parameter validation,
with the chart store passed in as the pure lookup view `store`: 404 on a
missing chart, fit adjustment, then resolution. -/
def recommend_size (s : Settings) (store : String → Option SizeChart)
    (chart_key : String) (value : ℚ) (fit : FitType) :
    Except ApiError RecommendationResponse :=
  match store chart_key with
  | none => .error (.http 404 ("No se encontro la guia de tallas: " ++ chart_key))
  | some chart =>
    let target_measurement := value + fit_adjustments s fit
    resolve chart_key chart target_measurement

/-- A raw query string for `/recommend-size`: each parameter either absent
or present. -/
structure RawQuery where
  chart_key? : Option String
  value? : Option ℚ
  fit? : Option String
deriving DecidableEq, Repr

/-- Parsing a string into the `FitType` enum. -/
def parseFit : String → Option FitType
  | "slim" => some .slim
  | "regular" => some .regular
  | "loose" => some .loose
  | _ => none

/-- The declarative parameter validation of `main.py` lines 72-77, as
enforced by FastAPI before the handler body runs: `chart_key` required,
`value` required with `gt=0` (so `value ≤ 0` is rejected), `fit` optional
with default `FitType.regular` and any literal outside the enum rejected.
FastAPI reports all these validation failures with client status 422. -/
def parseQuery (q : RawQuery) : Except ApiError (String × ℚ × FitType) :=
  match q.chart_key? with
  | none => .error (.http 422 "field required: chart_key")
  | some ck =>
    match q.value? with
    | none => .error (.http 422 "field required: value")
    | some v =>
      if v ≤ 0 then
        .error (.http 422 "value: ensure this value is greater than 0")
      else
        match q.fit? with
        | none => .ok (ck, v, FitType.regular)
        | some f =>
          match parseFit f with
          | none => .error (.http 422 "fit: value is not a valid enumeration member")
          | some ft => .ok (ck, v, ft)

/-- The whole `/recommend-size` endpoint: validation, then the handler. -/
def handle_request (s : Settings) (store : String → Option SizeChart)
    (q : RawQuery) : Except ApiError RecommendationResponse :=
  match parseQuery q with
  | .error e => .error e
  | .ok (ck, v, fit) => recommend_size s store ck v fit

/-- Cache state of a `functools.lru_cache`-decorated function on one string
argument: entries most-recently-used first. -/
abbrev CacheEntries := List (String × Option SizeChart)

/-- One call through `functools.lru_cache(maxsize=n)`: a hit returns the
cached value (whatever it is, including a cached `None`) and moves the
entry to the most-recently-used position; a miss computes, inserts at the
most-recently-used position and evicts the least-recently-used entry when
the capacity is exceeded. The boolean reports whether the underlying
function ran (a miss). -/
def lru_get (maxsize : Nat) (compute : String → Option SizeChart) (k : String)
    (entries : CacheEntries) : Option SizeChart × CacheEntries × Bool :=
  match entries.find? (fun e => e.1 == k) with
  | some e => (e.2, (k, e.2) :: entries.filter (fun e => e.1 != k), false)
  | none => (compute k, ((k, compute k) :: entries).take maxsize, true)

/-- `config.py:get_size_chart`, decorated `@lru_cache(maxsize=128)`. The
undecorated body reads `<key>.json` and returns the parsed chart, or `None`
when the file is missing or malformed; `fs` is that read, as a function of
the current state of the chart files. -/
def get_size_chart (fs : String → Option SizeChart) (k : String)
    (entries : CacheEntries) : Option SizeChart × CacheEntries × Bool :=
  lru_get 128 fs k entries

/-- Modelled from the spec: the claim C1 closest-match distance, in which an
absent `min` defaults to 0 and an absent `max` defaults to `+infinity`
(so an absent `max` contributes an infinite, never-minimal distance).
Stated for comparison with the source-derived `closest_key`. -/
def closest_key_spec (t : ℚ) (r : SizeRange) : ℚ :=
  match r.max? with
  | none => |t - r.min?.getD 0|
  | some m => min |t - r.min?.getD 0| |t - m|

/-- The §4.3 `adjust` contract as implemented at `main.py` line 96:
the raw value plus the fit table entry. -/
def adjust (s : Settings) (v : ℚ) (fit : FitType) : ℚ := v + fit_adjustments s fit

/-- First range of the spec's scenario chart `"A"`. -/
def rS : SizeRange := { min? := some 0, max? := some 10, size? := some "S" }

/-- Second range of the spec's scenario chart `"A"`. -/
def rM : SizeRange := { min? := some 10, max? := some 20, size? := some "M" }

/-- The spec's scenario chart `"A"`:
ranges `[{min:0,max:10,size:"S"},{min:10,max:20,size:"M"}]`. -/
def chartA3 : SizeChart := { ranges? := some [rS, rM], unit? := none, name? := none }

/-- A bounded range followed by a range with no `max` key, used to separate
the containment default (`+inf`) from the closest-distance default (`0`). -/
def rC1S : SizeRange := { min? := some 8, max? := some 10, size? := some "S" }

/-- Open-topped range (no `max` key). -/
def rC1L : SizeRange := { min? := some 100, max? := none, size? := some "L" }

/-- Chart whose second range lacks `max`. -/
def chartC1 : SizeChart := { ranges? := some [rC1S, rC1L], unit? := none, name? := none }

/-- A chart whose only range lacks its `size` label. -/
def chartNoLabel : SizeChart :=
  { ranges? := some [ { min? := some 0, max? := some 10, size? := none } ],
    unit? := none, name? := none }

/-- A successfully loaded chart whose `ranges` array is empty. -/
def chartEmpty : SizeChart := { ranges? := some [], unit? := none, name? := none }

/-- A store in which every key resolves to the scenario chart. -/
def storeA : String → Option SizeChart := fun _ => some chartA3

/-- A store in which every key resolves to the empty-ranges chart. -/
def storeEmpty : String → Option SizeChart := fun _ => some chartEmpty

/-- A filesystem view under which every chart file parses to `chartA3`. -/
def fsA : String → Option SizeChart := fun _ => some chartA3

/-- 129 distinct chart keys, `"K0"` through `"K128"`: one more than the
cache capacity of `get_size_chart`. -/
def manyKeys : List String := (List.range 129).map (fun i => "K" ++ toString i)

/-- The cache state after requesting `"K0"` through `"K128"` in order,
starting from an empty cache. -/
def cacheAfterMany : CacheEntries :=
  manyKeys.foldl (fun st k => (get_size_chart fsA k st).2.1) []

/-! ### Helper lemmas -/

/-- `find?` returns the first element satisfying the predicate. -/
theorem find?_first {α : Type} (p : α → Bool) (l1 l2 : List α) (r : α)
    (hr : p r = true) (h1 : ∀ a ∈ l1, p a = false) :
    (l1 ++ r :: l2).find? p = some r := by
  induction l1 with
  | nil => exact List.find?_cons_of_pos _ hr
  | cons a l ih =>
    rw [List.cons_append,
      List.find?_cons_of_neg _ (by simp [h1 a (List.mem_cons_self a l)])]
    exact ih (fun b hb => h1 b (List.mem_cons_of_mem a hb))

/-- Unfolding one step of `pyMin`. -/
theorem pyMin_cons {α : Type} (key : α → ℚ) (x a : α) (as : List α) :
    pyMin key x (a :: as) = pyMin key (if key a < key x then a else x) as := rfl

/-- `pyMin` returns the first element of the list attaining the minimal key:
it splits the list around the returned element, the returned key is a lower
bound for every key, and every element strictly before it has a strictly
larger key. -/
theorem pyMin_first {α : Type} (key : α → ℚ) (x : α) (xs : List α) :
    ∃ l1 l2, x :: xs = l1 ++ pyMin key x xs :: l2 ∧
      (∀ a ∈ x :: xs, key (pyMin key x xs) ≤ key a) ∧
      (∀ a ∈ l1, key (pyMin key x xs) < key a) := by
  induction xs generalizing x with
  | nil =>
    refine ⟨[], [], rfl, ?_, by simp⟩
    intro a ha
    rw [List.mem_singleton] at ha
    subst ha
    exact le_refl _
  | cons a as ih =>
    rw [pyMin_cons]
    by_cases h : key a < key x
    · rw [if_pos h]
      obtain ⟨l1, l2, hdec, hle, hlt⟩ := ih a
      have hax : key (pyMin key a as) ≤ key a := hle a (List.mem_cons_self a as)
      refine ⟨x :: l1, l2, ?_, ?_, ?_⟩
      · rw [List.cons_append, ← hdec]
      · intro b hb
        rcases List.mem_cons.mp hb with rfl | hb2
        · exact le_of_lt (lt_of_le_of_lt hax h)
        · exact hle b hb2
      · intro b hb
        rcases List.mem_cons.mp hb with rfl | hb2
        · exact lt_of_le_of_lt hax h
        · exact hlt b hb2
    · rw [if_neg h]
      obtain ⟨l1, l2, hdec, hle, hlt⟩ := ih x
      have hxa : key x ≤ key a := le_of_not_lt h
      cases l1 with
      | nil =>
        rw [List.nil_append] at hdec
        injection hdec with h1 h2
        refine ⟨[], a :: as, ?_, ?_, by simp⟩
        · rw [List.nil_append, ← h1]
        · intro b hb
          rw [← h1]
          rcases List.mem_cons.mp hb with rfl | hb2
          · exact le_refl _
          · rcases List.mem_cons.mp hb2 with rfl | hb3
            · exact hxa
            · have h3 := hle b (List.mem_cons_of_mem x hb3)
              rwa [← h1] at h3
      | cons y l1' =>
        rw [List.cons_append] at hdec
        injection hdec with h1 h2
        subst h1
        have hpx : key (pyMin key x as) < key x := hlt x (List.mem_cons_self x l1')
        refine ⟨x :: a :: l1', l2, ?_, ?_, ?_⟩
        · rw [List.cons_append, List.cons_append, ← h2]
        · intro b hb
          rcases List.mem_cons.mp hb with rfl | hb2
          · exact le_of_lt hpx
          · rcases List.mem_cons.mp hb2 with rfl | hb3
            · exact le_of_lt (lt_of_lt_of_le hpx hxa)
            · exact hle b (List.mem_cons_of_mem x hb3)
        · intro b hb
          rcases List.mem_cons.mp hb with rfl | hb2
          · exact hpx
          · rcases List.mem_cons.mp hb2 with rfl | hb3
            · exact lt_of_lt_of_le hpx hxa
            · exact hlt b (List.mem_cons_of_mem x hb3)

/-- Removing the elements satisfying a predicate that `find?` locates makes
the list strictly shorter. -/
theorem filter_not_length_lt {α : Type} (p : α → Bool) (l : List α) (e : α)
    (h : l.find? p = some e) :
    (l.filter (fun x => ! p x)).length < l.length := by
  induction l with
  | nil => simp [List.find?] at h
  | cons a l ih =>
    by_cases hp : p a
    · simp only [List.filter_cons, hp, Bool.not_true, List.length_cons]
      exact Nat.lt_succ_of_le (List.length_filter_le _ l)
    · rw [List.find?_cons_of_neg _ hp] at h
      simp only [List.filter_cons, hp, Bool.not_false, List.length_cons]
      exact Nat.succ_lt_succ (ih h)

/-- `resolve` on an empty ranges sequence is the 500 error. -/
theorem resolve_eq_nil (ck : String) (chart : SizeChart) (t : ℚ)
    (h : chart.ranges?.getD [] = []) :
    resolve ck chart t = .error (.http 500
      ("La guia de tallas " ++ ck ++ " no tiene rangos definidos.")) := by
  unfold resolve
  rw [h]

/-- `resolve` on a non-empty ranges sequence: first in-range match, else
closest match. -/
theorem resolve_eq_cons (ck : String) (chart : SizeChart) (t : ℚ)
    (r0 : SizeRange) (rs : List SizeRange)
    (h : chart.ranges?.getD [] = r0 :: rs) :
    resolve ck chart t =
      match (r0 :: rs).find? (inRangeB t) with
      | some r => buildResponse ck chart t Mode.inRange r
      | none => buildResponse ck chart t Mode.closest (pyMin (closest_key t) r0 rs) := by
  unfold resolve
  rw [h]

/-- The handler reaches `resolve` on the fit-adjusted target whenever the
store has the chart. -/
theorem recommend_size_eq (s : Settings) (store : String → Option SizeChart)
    (ck : String) (v : ℚ) (fit : FitType) (chart : SizeChart)
    (h : store ck = some chart) :
    recommend_size s store ck v fit = resolve ck chart (v + fit_adjustments s fit) := by
  unfold recommend_size
  rw [h]

/-- A successful `buildResponse` carries the range's label verbatim and the
rounded target. -/
theorem buildResponse_ok (ck : String) (chart : SizeChart) (t : ℚ) (m : Mode)
    (r : SizeRange) (resp : RecommendationResponse)
    (h : buildResponse ck chart t m r = .ok resp) :
    r.size? = some resp.recommended_size ∧ resp.target_measurement = round2 t ∧ resp.mode = m := by
  unfold buildResponse at h
  cases hs : r.size? with
  | none => rw [hs] at h; exact absurd h (by simp)
  | some sz =>
    rw [hs] at h
    injection h with h1
    subst h1
    exact ⟨rfl, rfl, rfl⟩

/-- Every run of `resolve` is either the empty-ranges 500 error or a
`buildResponse` on a range of the chart. -/
theorem resolve_cases (ck : String) (chart : SizeChart) (t : ℚ) :
    resolve ck chart t = .error (.http 500
      ("La guia de tallas " ++ ck ++ " no tiene rangos definidos.")) ∨
    ∃ r ∈ chart.ranges?.getD [], ∃ m, resolve ck chart t = buildResponse ck chart t m r := by
  cases hr : chart.ranges?.getD [] with
  | nil => exact Or.inl (resolve_eq_nil ck chart t hr)
  | cons r0 rs =>
    cases hf : (r0 :: rs).find? (inRangeB t) with
    | some r =>
      refine Or.inr ⟨r, ?_, Mode.inRange, ?_⟩
      · exact List.mem_of_find?_eq_some hf
      · rw [resolve_eq_cons ck chart t r0 rs hr, hf]
    | none =>
      obtain ⟨l1, l2, hdec, -, -⟩ := pyMin_first (closest_key t) r0 rs
      refine Or.inr ⟨pyMin (closest_key t) r0 rs, ?_, Mode.closest, ?_⟩
      · rw [hdec]
        exact List.mem_append_right l1 (List.mem_cons_self _ _)
      · rw [resolve_eq_cons ck chart t r0 rs hr, hf]

/-- A successful `resolve` returns the label of one of the chart's ranges,
verbatim, and reports the rounded target. -/
theorem resolve_ok (ck : String) (chart : SizeChart) (t : ℚ)
    (resp : RecommendationResponse) (h : resolve ck chart t = .ok resp) :
    ∃ r ∈ chart.ranges?.getD [],
      r.size? = some resp.recommended_size ∧ resp.target_measurement = round2 t := by
  rcases resolve_cases ck chart t with he | ⟨r, hmem, m, heq⟩
  · rw [he] at h; exact absurd h (by simp)
  · rw [heq] at h
    obtain ⟨h1, h2, -⟩ := buildResponse_ok ck chart t m r resp h
    exact ⟨r, hmem, h1, h2⟩

/-- Cache hit: the cached value is returned, the underlying read does not
run, and the entry moves to the most-recently-used position. -/
theorem lru_hit (fs : String → Option SizeChart) (k : String)
    (st : CacheEntries) (e : String × Option SizeChart)
    (h : st.find? (fun x => x.1 == k) = some e) :
    get_size_chart fs k st = (e.2, (k, e.2) :: st.filter (fun x => x.1 != k), false) := by
  unfold get_size_chart lru_get
  rw [h]

/-- Cache miss: the read runs, the result (chart or `none`) is inserted at
the most-recently-used position, and the list is truncated to 128 entries. -/
theorem lru_miss (fs : String → Option SizeChart) (k : String)
    (st : CacheEntries) (h : st.find? (fun x => x.1 == k) = none) :
    get_size_chart fs k st = (fs k, ((k, fs k) :: st).take 128, true) := by
  unfold get_size_chart lru_get
  rw [h]

/-! ### Claims -/

/-- C3: on a chart with at least one in-range match, `resolve` returns the
size label of the first matching range in stored order with mode
`in-range`; in particular on the scenario chart
`[{min:0,max:10,size:"S"},{min:10,max:20,size:"M"}]` with target 10 the
result is `"S"` with mode `in-range`. -/
theorem claim_C3_theorem :
    (∀ (ck : String) (chart : SizeChart) (t : ℚ) (l1 l2 : List SizeRange)
        (r : SizeRange) (sz : String),
      chart.ranges?.getD [] = l1 ++ r :: l2 →
      (∀ r' ∈ l1, inRangeB t r' = false) →
      inRangeB t r = true →
      r.size? = some sz →
      resolve ck chart t = .ok
        { recommended_size := sz, target_measurement := round2 t,
          unit := chart.unit?.getD "cm", mode := Mode.inRange, chart_key := ck,
          chart_name := chart.name?.getD ck }) ∧
    (∃ resp, resolve "A" chartA3 10 = .ok resp ∧
      resp.recommended_size = "S" ∧ resp.mode = Mode.inRange) := by
  constructor
  · intro ck chart t l1 l2 r sz hdec hmiss hhit hsz
    have hfind : (l1 ++ r :: l2).find? (inRangeB t) = some r := find?_first _ l1 l2 r hhit hmiss
    cases l1 with
    | nil =>
      rw [List.nil_append] at hdec hfind
      rw [resolve_eq_cons ck chart t r l2 hdec, hfind]
      simp only [buildResponse, hsz]
    | cons a l1' =>
      rw [List.cons_append] at hdec hfind
      rw [resolve_eq_cons ck chart t a (l1' ++ r :: l2) hdec, hfind]
      simp only [buildResponse, hsz]
  · exact
      ⟨{ recommended_size := "S", target_measurement := round2 10, unit := "cm",
         mode := Mode.inRange, chart_key := "A", chart_name := "A" }, rfl, rfl, rfl⟩

/-- Witness for C3: the general part applied to the scenario chart at
target 10, first matching range `rS`. -/
theorem claim_C3_witness :
    resolve "A" chartA3 10 = .ok
      { recommended_size := "S", target_measurement := round2 10,
        unit := chartA3.unit?.getD "cm", mode := Mode.inRange, chart_key := "A",
        chart_name := chartA3.name?.getD "A" } :=
  claim_C3_theorem.1 "A" chartA3 10 [] [rM] rS "S" rfl (by simp) (by decide) rfl

/-- C4: on a chart that loads successfully but has an empty `ranges`
sequence, the handler returns the 500 error naming the chart key, for
every value and fit — never a crash or a default size. -/
theorem claim_C4_theorem :
    ∀ (s : Settings) (store : String → Option SizeChart) (ck : String)
      (v : ℚ) (fit : FitType) (chart : SizeChart),
      store ck = some chart →
      chart.ranges?.getD [] = [] →
      recommend_size s store ck v fit = .error (.http 500
        ("La guia de tallas " ++ ck ++ " no tiene rangos definidos.")) := by
  intro s store ck v fit chart hst hranges
  rw [recommend_size_eq s store ck v fit chart hst]
  exact resolve_eq_nil ck chart _ hranges

/-- Witness for C4: the empty-ranges chart behind key `"E"`. -/
theorem claim_C4_witness :
    recommend_size defaultSettings storeEmpty "E" 50 FitType.regular =
      .error (.http 500 ("La guia de tallas " ++ "E" ++ " no tiene rangos definidos.")) :=
  claim_C4_theorem defaultSettings storeEmpty "E" 50 FitType.regular chartEmpty rfl rfl

/-- C1 counterexample: on `chartC1` with target 1 (strictly outside both
ranges), the code returns `"L"` with mode `closest`, while the range
minimizing the claim's distance — absent `max` defaulting to `+infinity` —
is the `"S"` range: the code defaults the absent `max` to 0 in the
closest-distance key (`main.py` line 118), not to `+infinity`. -/
theorem claim_C1_counterexample :
    (∀ r ∈ chartC1.ranges?.getD [], inRangeB 1 r = false) ∧
    (∃ resp, resolve "C" chartC1 1 = .ok resp ∧
      resp.recommended_size = "L" ∧ resp.mode = Mode.closest) ∧
    (pyMin (closest_key_spec 1) rC1S [rC1L]).size? = some "S" := by
  refine ⟨by decide, ?_, by with_unfolding_all decide⟩
  exact
    ⟨{ recommended_size := "L", target_measurement := round2 1, unit := "cm",
       mode := Mode.closest, chart_key := "C", chart_name := "C" },
     by with_unfolding_all rfl, rfl, rfl⟩

/-- C1 (amended): for a chart with a non-empty ranges sequence and a target
strictly outside every range, `resolve` returns mode `closest` and the
label of the first range minimizing
`min(:target - r.min:, :target - r.max:)`, where an absent `min` AND an
absent `max` both default to 0 in this distance computation (the
containment test alone defaults `max` to `+infinity`); ties go to the
earlier range. -/
theorem claim_C1_theorem :
    ∀ (ck : String) (chart : SizeChart) (t : ℚ) (r0 : SizeRange) (rs : List SizeRange),
      chart.ranges?.getD [] = r0 :: rs →
      (∀ r ∈ r0 :: rs, inRangeB t r = false) →
      ∃ l1 l2, r0 :: rs = l1 ++ pyMin (closest_key t) r0 rs :: l2 ∧
        resolve ck chart t = buildResponse ck chart t Mode.closest (pyMin (closest_key t) r0 rs) ∧
        (∀ r ∈ r0 :: rs, closest_key t (pyMin (closest_key t) r0 rs) ≤ closest_key t r) ∧
        (∀ r ∈ l1, closest_key t (pyMin (closest_key t) r0 rs) < closest_key t r) := by
  intro ck chart t r0 rs hr hout
  have hf : (r0 :: rs).find? (inRangeB t) = none :=
    List.find?_eq_none.mpr (fun a ha => by simp [hout a ha])
  obtain ⟨l1, l2, hdec, hle, hlt⟩ := pyMin_first (closest_key t) r0 rs
  refine ⟨l1, l2, hdec, ?_, hle, hlt⟩
  rw [resolve_eq_cons ck chart t r0 rs hr, hf]

/-- Witness for C1 (amended): `chartC1` at target 1. -/
theorem claim_C1_witness :
    ∃ l1 l2, rC1S :: [rC1L] = l1 ++ pyMin (closest_key 1) rC1S [rC1L] :: l2 ∧
      resolve "C" chartC1 1 = buildResponse "C" chartC1 1 Mode.closest (pyMin (closest_key 1) rC1S [rC1L]) ∧
      (∀ r ∈ rC1S :: [rC1L], closest_key 1 (pyMin (closest_key 1) rC1S [rC1L]) ≤ closest_key 1 r) ∧
      (∀ r ∈ l1, closest_key 1 (pyMin (closest_key 1) rC1S [rC1L]) < closest_key 1 r) :=
  claim_C1_theorem "C" chartC1 1 rC1S [rC1L] rfl (by decide)

/-- C2 counterexample: with the chart file absent, the first call caches a
`None` result; after the file appears (a filesystem now returning the
parsed chart), the next call for the same key still returns the cached
`None` instead of the chart — `lru_cache` caches the negative result. -/
theorem claim_C2_counterexample :
    (get_size_chart (fun _ => none) "A" []).1 = none ∧
    (get_size_chart (fun _ => some chartA3) "A"
      (get_size_chart (fun _ => none) "A" []).2.1).1 = none := by
  with_unfolding_all decide

/-- C2 (amended): `get_size_chart` caches negative results exactly like
positive ones: immediately after any call for a key — hit or miss,
successful or `None` — a second call for the same key is a pure cache hit
(the backing read does not run) and returns the same value, even if the
backing resource changed in between. A later file cannot be picked up for
that key until the entry is evicted by 128 more-recent distinct keys or
the process restarts. -/
theorem claim_C2_theorem :
    ∀ (fs1 fs2 : String → Option SizeChart) (k : String) (st : CacheEntries),
      (get_size_chart fs2 k (get_size_chart fs1 k st).2.1).1 = (get_size_chart fs1 k st).1 ∧
      (get_size_chart fs2 k (get_size_chart fs1 k st).2.1).2.2 = false := by
  intro fs1 fs2 k st
  cases h : st.find? (fun x => x.1 == k) with
  | some e =>
    rw [lru_hit fs1 k st e h]
    rw [lru_hit fs2 k _ (k, e.2) (List.find?_cons_of_pos _ (by simp))]
    exact ⟨rfl, rfl⟩
  | none =>
    rw [lru_miss fs1 k st h]
    rw [show ((k, fs1 k) :: st).take 128 = (k, fs1 k) :: st.take 127 from rfl]
    rw [lru_hit fs2 k _ (k, fs1 k) (List.find?_cons_of_pos _ (by simp))]
    exact ⟨rfl, rfl⟩

/-- C5 counterexample: `"K0"` is loaded successfully, but after 128 further
distinct keys are requested the `"K0"` entry has been evicted from the
cache (`lru_cache(maxsize=128)` is bounded), and the next call for `"K0"`
re-runs the backing read instead of being served from cache. -/
theorem claim_C5_counterexample :
    (get_size_chart fsA "K0" []).1 = some chartA3 ∧
    cacheAfterMany.find? (fun e => e.1 == "K0") = none ∧
    (get_size_chart fsA "K0" cacheAfterMany).2.2 = true := by
  with_unfolding_all decide

/-- C5 (amended): the chart cache is bounded at 128 entries with
least-recently-used eviction, not unbounded: a hit is served from cache
(no read) and refreshes recency, a miss runs the read and inserts the
result, truncating the cache back to 128 entries, so the entry count never
exceeds 128 and a loaded key stays served-from-cache only while it remains
among the 128 most recently used. -/
theorem claim_C5_theorem :
    (∀ (fs : String → Option SizeChart) (k : String) (st : CacheEntries),
        st.length ≤ 128 → ((get_size_chart fs k st).2.1).length ≤ 128) ∧
    (∀ (fs : String → Option SizeChart) (k : String) (st : CacheEntries)
        (e : String × Option SizeChart),
        st.find? (fun x => x.1 == k) = some e →
        get_size_chart fs k st = (e.2, (k, e.2) :: st.filter (fun x => x.1 != k), false)) ∧
    (∀ (fs : String → Option SizeChart) (k : String) (st : CacheEntries),
        st.find? (fun x => x.1 == k) = none →
        get_size_chart fs k st = (fs k, ((k, fs k) :: st).take 128, true)) := by
  refine ⟨?_, lru_hit, lru_miss⟩
  intro fs k st hlen
  cases h : st.find? (fun x => x.1 == k) with
  | some e =>
    rw [lru_hit fs k st e h]
    have hf : (st.filter (fun x => x.1 != k)).length < st.length := by
      have h2 := filter_not_length_lt (fun x => x.1 == k) st e h
      simpa [bne] using h2
    simp only [List.length_cons]
    omega
  | none =>
    rw [lru_miss fs k st h]
    exact List.length_take_le 128 ((k, fs k) :: st)

/-- Witness for C5 (amended): the bound on an empty cache, a hit on a
one-entry cache, and a miss on an empty cache. -/
theorem claim_C5_witness :
    ((get_size_chart fsA "A" []).2.1).length ≤ 128 ∧
    get_size_chart fsA "A" [("A", some chartA3)] =
      (some chartA3, ("A", some chartA3) :: List.filter (fun x => x.1 != "A") [("A", some chartA3)], false) ∧
    get_size_chart fsA "K9" [] = (fsA "K9", (("K9", fsA "K9") :: ([] : CacheEntries)).take 128, true) :=
  ⟨claim_C5_theorem.1 fsA "A" [] (by simp),
   claim_C5_theorem.2.1 fsA "A" [("A", some chartA3)] ("A", some chartA3) (by decide),
   claim_C5_theorem.2.2 fsA "K9" [] rfl⟩

/-- C6: the fit adjustment is the pure addition of the table entry — so the
same rounding applied to `adjust s v fit` and to `v + table[fit]` agrees
for every value and fit —, the handler feeds exactly `adjust` into
`resolve`, a missing `fit` parses to `regular`, and the default table is
slim ↦ -1, regular ↦ 0, loose ↦ 1. -/
theorem claim_C6_theorem :
    (∀ (s : Settings) (v : ℚ) (fit : FitType),
        adjust s v fit = v + fit_adjustments s fit ∧
        round2 (adjust s v fit) = round2 (v + fit_adjustments s fit)) ∧
    (∀ (s : Settings) (store : String → Option SizeChart) (ck : String)
        (v : ℚ) (fit : FitType) (chart : SizeChart),
        store ck = some chart →
        recommend_size s store ck v fit = resolve ck chart (adjust s v fit)) ∧
    (∀ (ck : String) (v : ℚ), 0 < v →
        parseQuery { chart_key? := some ck, value? := some v, fit? := none } =
          .ok (ck, v, FitType.regular)) ∧
    fit_adjustments defaultSettings FitType.slim = -1 ∧
    fit_adjustments defaultSettings FitType.regular = 0 ∧
    fit_adjustments defaultSettings FitType.loose = 1 := by
  refine ⟨fun s v fit => ⟨rfl, rfl⟩, recommend_size_eq, ?_, rfl, rfl, rfl⟩
  intro ck v hv
  simp only [parseQuery]
  rw [if_neg (not_le.mpr hv)]

/-- Witness for C6: the loose adjustment on value 7, the handler path on
the scenario store, and default-fit parsing at value 7. -/
theorem claim_C6_witness :
    (adjust defaultSettings 7 FitType.loose = 7 + fit_adjustments defaultSettings FitType.loose ∧
      round2 (adjust defaultSettings 7 FitType.loose) =
        round2 (7 + fit_adjustments defaultSettings FitType.loose)) ∧
    recommend_size defaultSettings storeA "A" 7 FitType.loose =
      resolve "A" chartA3 (adjust defaultSettings 7 FitType.loose) ∧
    parseQuery { chart_key? := some "A", value? := some 7, fit? := none } =
      .ok ("A", 7, FitType.regular) :=
  ⟨claim_C6_theorem.1 defaultSettings 7 FitType.loose,
   claim_C6_theorem.2.1 defaultSettings storeA "A" 7 FitType.loose chartA3 rfl,
   claim_C6_theorem.2.2.1 "A" 7 (by norm_num)⟩

/-- C7: whenever the handler succeeds, the reported `target_measurement` is
the fit-adjusted value rounded to 2 decimals, while the resolution itself
(containment tests and closest distances) ran on the unrounded
fit-adjusted value. -/
theorem claim_C7_theorem :
    ∀ (s : Settings) (store : String → Option SizeChart) (ck : String)
      (v : ℚ) (fit : FitType) (resp : RecommendationResponse),
      recommend_size s store ck v fit = .ok resp →
      resp.target_measurement = round2 (v + fit_adjustments s fit) ∧
      ∃ chart, store ck = some chart ∧
        resolve ck chart (v + fit_adjustments s fit) = .ok resp := by
  intro s store ck v fit resp h
  cases hst : store ck with
  | none =>
    rw [recommend_size, hst] at h
    exact absurd h (by simp)
  | some chart =>
    rw [recommend_size_eq s store ck v fit chart hst] at h
    obtain ⟨r, -, -, htarget⟩ := resolve_ok ck chart _ resp h
    exact ⟨htarget, chart, rfl, h⟩

/-- The concrete successful response used by the C7 witness. -/
def respA : RecommendationResponse :=
  { recommended_size := "S"
    target_measurement := round2 (10 + fit_adjustments defaultSettings FitType.regular)
    unit := "cm"
    mode := Mode.inRange
    chart_key := "A"
    chart_name := "A" }

/-- Witness for C7: a successful lookup on the scenario chart at value 10
with the regular fit. -/
theorem claim_C7_witness :
    respA.target_measurement = round2 (10 + fit_adjustments defaultSettings FitType.regular) ∧
    ∃ chart, storeA "A" = some chart ∧
      resolve "A" chart (10 + fit_adjustments defaultSettings FitType.regular) = .ok respA :=
  claim_C7_theorem defaultSettings storeA "A" 10 FitType.regular respA
    (by with_unfolding_all rfl)

/-- C8: every parameter-validation failure short-circuits the endpoint with
the parse error itself, independent of the chart store (so before any
chart lookup or resolution); a missing `value` and a non-positive `value`
are client 422 errors, a `fit` literal outside the enum is a client 422
error (never silently defaulted), and a missing `fit` defaults to
`regular`. -/
theorem claim_C8_theorem :
    (∀ (s : Settings) (store : String → Option SizeChart) (q : RawQuery) (e : ApiError),
        parseQuery q = .error e → handle_request s store q = .error e) ∧
    (∀ q : RawQuery, q.value? = none → ∃ d, parseQuery q = .error (.http 422 d)) ∧
    (∀ (ck : String) (f? : Option String) (v : ℚ), v ≤ 0 →
        ∃ d, parseQuery { chart_key? := some ck, value? := some v, fit? := f? } =
          .error (.http 422 d)) ∧
    (∀ (ck f : String) (v : ℚ), 0 < v → parseFit f = none →
        ∃ d, parseQuery { chart_key? := some ck, value? := some v, fit? := some f } =
          .error (.http 422 d)) ∧
    (∀ (ck : String) (v : ℚ), 0 < v →
        parseQuery { chart_key? := some ck, value? := some v, fit? := none } =
          .ok (ck, v, FitType.regular)) := by
  refine ⟨?_, ?_, ?_, ?_, ?_⟩
  · intro s store q e h
    rw [handle_request, h]
  · intro q h
    rcases q with ⟨ck?, v?, f?⟩
    simp only at h
    subst h
    cases ck? with
    | none => exact ⟨"field required: chart_key", rfl⟩
    | some ck => exact ⟨"field required: value", rfl⟩
  · intro ck f? v hv
    simp only [parseQuery]
    rw [if_pos hv]
    exact ⟨_, rfl⟩
  · intro ck f v hv hf
    simp only [parseQuery]
    rw [if_neg (not_le.mpr hv), hf]
    exact ⟨_, rfl⟩
  · intro ck v hv
    simp only [parseQuery]
    rw [if_neg (not_le.mpr hv)]

/-- Witness for C8: a negative value rejected before the store is touched,
missing parameters, an unknown fit literal, and the default fit. -/
theorem claim_C8_witness :
    handle_request defaultSettings storeA
        { chart_key? := some "A", value? := some (-5), fit? := none } =
      .error (.http 422 "value: ensure this value is greater than 0") ∧
    (∃ d, parseQuery { chart_key? := none, value? := none, fit? := none } =
      .error (.http 422 d)) ∧
    (∃ d, parseQuery { chart_key? := some "A", value? := some (-5), fit? := none } =
      .error (.http 422 d)) ∧
    (∃ d, parseQuery { chart_key? := some "A", value? := some 5, fit? := some "tight" } =
      .error (.http 422 d)) ∧
    parseQuery { chart_key? := some "A", value? := some 5, fit? := none } =
      .ok ("A", 5, FitType.regular) :=
  ⟨claim_C8_theorem.1 defaultSettings storeA _ _ (by with_unfolding_all rfl),
   claim_C8_theorem.2.1 _ rfl,
   claim_C8_theorem.2.2.1 "A" none (-5) (by norm_num),
   claim_C8_theorem.2.2.2.1 "A" "tight" 5 (by norm_num) rfl,
   claim_C8_theorem.2.2.2.2 "A" 5 (by norm_num)⟩

/-- C9 counterexample: on a chart whose winning range lacks its `size`
label, `resolve` fails with the raw propagated `KeyError` from
`r["size"]`, not an explicit configuration-defect rejection. -/
theorem claim_C9_counterexample :
    resolve "N" chartNoLabel 5 = .error (.keyError "size") := by
  with_unfolding_all rfl

/-- C9 (amended): when every range of a chart carries a `size` label, any
resolution returns some range's label verbatim and never raises the
missing-label error; but when the winning range lacks its label, the
handler fails with the propagated `KeyError` (an uncaught exception), not
an explicit configuration-defect rejection. -/
theorem claim_C9_theorem :
    (∀ (ck : String) (chart : SizeChart) (t : ℚ) (k : String),
        (∀ r ∈ chart.ranges?.getD [], r.size?.isSome = true) →
        resolve ck chart t ≠ .error (.keyError k)) ∧
    (∀ (ck : String) (chart : SizeChart) (t : ℚ) (resp : RecommendationResponse),
        resolve ck chart t = .ok resp →
        ∃ r ∈ chart.ranges?.getD [], r.size? = some resp.recommended_size) ∧
    (∀ (ck : String) (chart : SizeChart) (t : ℚ) (r : SizeRange),
        (chart.ranges?.getD []).find? (inRangeB t) = some r →
        r.size? = none →
        resolve ck chart t = .error (.keyError "size")) := by
  refine ⟨?_, ?_, ?_⟩
  · intro ck chart t k hall
    rcases resolve_cases ck chart t with he | ⟨r, hmem, m, heq⟩
    · rw [he]; simp
    · rw [heq]
      have hs := hall r hmem
      cases hsz : r.size? with
      | none => rw [hsz] at hs; exact absurd hs (by simp)
      | some sz => simp [buildResponse, hsz]
  · intro ck chart t resp h
    obtain ⟨r, hmem, hsz, -⟩ := resolve_ok ck chart t resp h
    exact ⟨r, hmem, hsz⟩
  · intro ck chart t r hf hsz
    cases hlist : chart.ranges?.getD [] with
    | nil => rw [hlist] at hf; exact absurd hf (by simp)
    | cons r0 rs =>
      rw [hlist] at hf
      rw [resolve_eq_cons ck chart t r0 rs hlist, hf]
      simp [buildResponse, hsz]

/-- Witness for C9 (amended): the fully-labeled scenario chart never raises
the missing-label error, and the unlabeled chart propagates `KeyError`. -/
theorem claim_C9_witness :
    resolve "A" chartA3 10 ≠ .error (.keyError "size") ∧
    resolve "N2" chartNoLabel 5 = .error (.keyError "size") :=
  ⟨claim_C9_theorem.1 "A" chartA3 10 "size" (by decide),
   claim_C9_theorem.2.2 "N2" chartNoLabel 5
     { min? := some 0, max? := some 10, size? := none } rfl rfl⟩

/-- C10: the `gt=0` validation applies to the raw query value only, before
fit adjustment: with the default settings, any value `0 < v ≤ 1` with fit
`slim` (offset -1) passes validation, the fit-adjusted target `v - 1` is
non-positive, and the endpoint proceeds to the handler and resolution on
that non-positive target rather than rejecting it. -/
theorem claim_C10_theorem :
    ∀ v : ℚ, 0 < v → v ≤ 1 →
      (∀ ck : String,
        parseQuery { chart_key? := some ck, value? := some v, fit? := some "slim" } =
          .ok (ck, v, FitType.slim)) ∧
      v + fit_adjustments defaultSettings FitType.slim ≤ 0 ∧
      (∀ (store : String → Option SizeChart) (ck : String),
        handle_request defaultSettings store
            { chart_key? := some ck, value? := some v, fit? := some "slim" } =
          recommend_size defaultSettings store ck v FitType.slim) := by
  intro v h0 h1
  have hpq : ∀ ck : String,
      parseQuery { chart_key? := some ck, value? := some v, fit? := some "slim" } =
        .ok (ck, v, FitType.slim) := by
    intro ck
    simp only [parseQuery]
    rw [if_neg (not_le.mpr h0)]
    rfl
  refine ⟨hpq, ?_, ?_⟩
  · have hs : fit_adjustments defaultSettings FitType.slim = -1 := rfl
    rw [hs]
    linarith
  · intro store ck
    rw [handle_request, hpq ck]

/-- Witness for C10: value 1/2 with fit `slim` passes validation and
reaches the handler with target -1/2. -/
theorem claim_C10_witness :
    parseQuery { chart_key? := some "A", value? := some ((1 : ℚ)/2), fit? := some "slim" } =
      .ok ("A", (1 : ℚ)/2, FitType.slim) ∧
    ((1 : ℚ)/2) + fit_adjustments defaultSettings FitType.slim ≤ 0 ∧
    handle_request defaultSettings storeA
        { chart_key? := some "A", value? := some ((1 : ℚ)/2), fit? := some "slim" } =
      recommend_size defaultSettings storeA "A" ((1 : ℚ)/2) FitType.slim :=
  ⟨(claim_C10_theorem ((1 : ℚ)/2) (by norm_num) (by norm_num)).1 "A",
   (claim_C10_theorem ((1 : ℚ)/2) (by norm_num) (by norm_num)).2.1,
   (claim_C10_theorem ((1 : ℚ)/2) (by norm_num) (by norm_num)).2.2 storeA "A"⟩

end CalculadoraTalla
